import Mathlib

/-!
# Tergite SDK core: shallow embedding and verification

The tergite repository is a Python client SDK for submitting quantum-circuit
jobs to a remote backend service.  Its specification describes four core
components: an Account Store, an HTTP Transport, a Calibration/Device Cache
and a Job Client with a polling loop.  The Python package implementing these
components is not part of the source snapshot (only documentation, examples,
CI scripts and test fixtures are), so each component below is modelled
directly from the specification text, as the doc comments record.

Time is discretised: the polling loop sleeps a fixed interval between
status checks, so a caller-supplied timeout corresponds to a maximal number
of polls; cache timestamps are naturals.
-/

namespace Tergite

/-- The job lifecycle statuses named by the spec data model:
queued / running / done / failed / cancelled. -/
inductive JobStatus where
  | queued
  | running
  | done
  | failed
  | cancelled
deriving DecidableEq, Fintype

/-- Terminal statuses per the spec: a job is terminal on done/failed/cancelled. -/
def JobStatus.isTerminal : JobStatus → Bool
  | .done => true
  | .failed => true
  | .cancelled => true
  | _ => false

/-- One server response to a single status poll: either a transient
per-poll error, or a reply carrying the reported status, the
server-supplied error detail (meaningful when the status is failed) and the
result payload (meaningful when the status is done). -/
inductive PollResponse where
  | transientError
  | reply (status : JobStatus) (errorDetail : String) (payload : Nat)
deriving DecidableEq

/-- The status reported by a poll response, if the poll did not fail. -/
def PollResponse.statusOf : PollResponse → Option JobStatus
  | .transientError => none
  | .reply s _ _ => some s

/-- A poll response after which the polling loop keeps going: a transient
error or a reply with a non-terminal status. -/
def PollResponse.isNonTerminal : PollResponse → Bool
  | .transientError => true
  | .reply s _ _ => !s.isTerminal

/-- The outcome of the job client operation `result`: the final result
payload, a JobFailedError embedding the server error detail, an error for a
cancelled job, or a TimeoutError. -/
inductive ResultOutcome where
  | ok (payload : Nat)
  | jobFailedError (detail : String)
  | cancelledError
  | timeoutError
deriving DecidableEq

/-- Modelled from the spec: the body of `result(job, timeout)`.  The job
client code is absent from the snapshot; per the spec it "polls `status` in
a loop with fixed sleep interval until terminal state or timeout elapsed;
fails with TimeoutError if exceeded; fails with JobFailedError if server
reports failure, embedding server error detail", and "polling continues
across transient per-poll errors up to the overall timeout".  `server t` is
the server response to the poll at tick `t`; `fuel` is the number of polls
that still fit before the caller-supplied timeout elapses. -/
def resultFrom (server : Nat → PollResponse) : Nat → Nat → ResultOutcome
  | _, 0 => .timeoutError
  | t, fuel + 1 =>
    match server t with
    | .transientError => resultFrom server (t + 1) fuel
    | .reply .done _ payload => .ok payload
    | .reply .failed detail _ => .jobFailedError detail
    | .reply .cancelled _ _ => .cancelledError
    | .reply _ _ _ => resultFrom server (t + 1) fuel

/-- Modelled from the spec: `result(job, timeout)` with the timeout measured
in number of polls (the sleep interval is fixed, so elapsed time is
proportional to the number of polls performed). -/
def result (server : Nat → PollResponse) (timeout : Nat) : ResultOutcome :=
  resultFrom server 0 timeout

/-- A demonstration server whose successive poll replies are QUEUED, then
RUNNING, then DONE with payload 42. -/
def demoServerQRD : Nat → PollResponse := fun t =>
  if t = 0 then .reply .queued "" 0
  else if t = 1 then .reply .running "" 0
  else .reply .done "" 42

/-- A demonstration server that reports QUEUED once and then FAILED with
the error detail message "boom". -/
def demoServerFail : Nat → PollResponse := fun t =>
  if t = 0 then .reply .queued "" 0
  else .reply .failed "boom" 0

/-- A demonstration server that alternates transient poll errors with
QUEUED replies and never reaches a terminal status. -/
def demoServerStuck : Nat → PollResponse := fun t =>
  if t % 2 = 0 then .transientError
  else .reply .queued "" 0

/-- A client operation that can change the locally tracked status of a job:
a status poll (performed by `status` and by the `result` loop), or an
explicit cancel request. -/
inductive ClientOp where
  | poll
  | cancelReq
deriving DecidableEq, Fintype

/-- Modelled from the spec: the job status state machine, QUEUED to
RUNNING to either DONE or FAILED; any non-terminal state to CANCELLED via
explicit cancel; terminal states have no outgoing transitions.
`allowedNext s op s2` holds when the locally tracked status
may move from `s` to `s2` under client operation `op`; remaining in the
same non-terminal state (the server reports no progress) is allowed for a
poll, and a terminal state never changes. -/
def allowedNext (s : JobStatus) (op : ClientOp) (s2 : JobStatus) : Bool :=
  if s.isTerminal then s2 = s
  else
    match op with
    | .cancelReq => s2 = .cancelled
    | .poll =>
      match s, s2 with
      | .queued, .queued => true
      | .queued, .running => true
      | .running, .running => true
      | .running, .done => true
      | .running, .failed => true
      | _, _ => false

/-- Progress rank of a status: the state machine only ever moves toward a
terminal state, so the rank never decreases along observed transitions. -/
def rank : JobStatus → Nat
  | .queued => 0
  | .running => 1
  | .done => 2
  | .failed => 2
  | .cancelled => 2

/-- A locally observed run of a job: starting from status `s`, each step
records the client operation performed and the status tracked afterwards,
and every step must be an allowed transition of the state machine. -/
def validTrace : JobStatus → List (ClientOp × JobStatus) → Bool
  | _, [] => true
  | s, (op, s2) :: rest => allowedNext s op s2 && validTrace s2 rest

/-- Modelled from the spec: `cancel(job)` "requests cancellation;
idempotent if already terminal".  The returned value is the job status
after the cancel request: a terminal job is left unchanged, a non-terminal
job moves to cancelled. -/
def cancel (s : JobStatus) : JobStatus :=
  if s.isTerminal then s else .cancelled

/-- A calibration/device cache entry: the cached value together with the
timestamp at which it was stored. -/
structure CacheEntry (α : Type) where
  value : α
  storedAt : Nat
deriving DecidableEq

/-- Modelled from the spec: the fixed TTL constant of the
calibration/device cache.  The spec fixes a constant without naming its
value; the proofs below do not depend on the value chosen here. -/
def TTL : Nat := 60

/-- The calibration/device cache: an in-memory association of keys
(backend names) to timestamped entries, unbounded, with no eviction beyond
TTL expiry. -/
structure CalCache (α : Type) where
  entries : List (String × CacheEntry α)
deriving DecidableEq

/-- Look up the entry stored for a key, newest store first. -/
def lookupEntry {α : Type} : List (String × CacheEntry α) → String → Option (CacheEntry α)
  | [], _ => none
  | (k, e) :: rest, key => if k = key then some e else lookupEntry rest key

/-- Modelled from the spec: the cache operation
get(key, fetch_fn) returns the cached value if its age is strictly below
TTL, else calls fetch_fn, stores the result with the current timestamp and
returns it.  `now` is the current time; the third component of the result
records whether fetch_fn was invoked by this call. -/
def CalCache.get {α : Type} (c : CalCache α) (key : String) (fetch : Unit → α)
    (now : Nat) : α × CalCache α × Bool :=
  match lookupEntry c.entries key with
  | some e =>
    if now - e.storedAt < TTL then (e.value, c, false)
    else
      let v := fetch ()
      (v, ⟨(key, ⟨v, now⟩) :: c.entries⟩, true)
  | none =>
    let v := fetch ()
    (v, ⟨(key, ⟨v, now⟩) :: c.entries⟩, true)

/-- A provider account per the spec data model: a service_name acting as
unique key, a base url and a token credential; immutable once created and
persisted as a named section of the tergiterc config file. -/
structure ProviderAccount where
  service_name : String
  url : String
  token : Option String
deriving DecidableEq

/-- The parsed contents of the tergiterc config file: named sections, each
keyed by a service name and holding one account. -/
abbrev ConfigSections := List (String × ProviderAccount)

/-- Look up the section with the given name in the config file contents. -/
def lookupSection : ConfigSections → String → Option ProviderAccount
  | [], _ => none
  | (k, a) :: rest, n => if k = n then some a else lookupSection rest n

/-- The first-found account of the config file contents. -/
def firstAccount : ConfigSections → Option ProviderAccount
  | [] => none
  | (_, a) :: _ => some a

/-- Modelled from the spec: the Account Store operation save(account)
"writes/overwrites a named section" keyed by the account's service_name:
an existing section of that name is replaced in place, otherwise a new
section is appended. -/
def saveSections : ConfigSections → ProviderAccount → ConfigSections
  | [], a => [(a.service_name, a)]
  | (k, b) :: rest, a =>
    if k = a.service_name then (k, a) :: rest
    else (k, b) :: saveSections rest a

/-- The account found for an optional service name in an optional config
file: nothing when the file is absent; the named section's account when a
name is given; the first-found account otherwise. -/
def findAccount (file : Option ConfigSections) (serviceName : Option String) :
    Option ProviderAccount :=
  match file, serviceName with
  | none, _ => none
  | some secs, some n => lookupSection secs n
  | some secs, none => firstAccount secs

/-- The outcome of the Account Store operation load: an account, or a
ConfigNotFoundError. -/
inductive LoadResult where
  | ok (account : ProviderAccount)
  | configNotFoundError
deriving DecidableEq

/-- Modelled from the spec: the Account Store operation load(service_name?)
"returns the named or first-found account; fails with ConfigNotFoundError
if the file or section is absent and no account is supplied".  `file` is
the config file contents, absent when the file does not exist; `fallback`
is the directly supplied account, if any. -/
def load (file : Option ConfigSections) (serviceName : Option String)
    (fallback : Option ProviderAccount) : LoadResult :=
  match findAccount file serviceName with
  | some a => .ok a
  | none =>
    match fallback with
    | some a => .ok a
    | none => .configNotFoundError

/-- A provider handle backed by one provider account. -/
structure TergiteProvider where
  account : ProviderAccount
deriving DecidableEq

/-- Modelled from the spec and README: Tergite.use_provider_account(account,
save) returns a provider backed by the account; when save is true it also
writes the account into the tergiterc config file (creating it when
absent), and when save is false the config file is left untouched. -/
def use_provider_account (file : Option ConfigSections) (a : ProviderAccount)
    (save : Bool) : TergiteProvider × Option ConfigSections :=
  if save then (⟨a⟩, some (saveSections (file.getD []) a))
  else (⟨a⟩, file)

/-- The authentication schemes supported by the HTTP Transport:
bearer-token and basic auth. -/
inductive AuthKind where
  | bearer (token : String)
  | basic (username password : String)
deriving DecidableEq

/-- One wire outcome of an HTTP call: a response carrying the numeric
status code, the response body and the server-supplied error message, or a
connection failure. -/
inductive HttpOutcome where
  | response (status : Nat) (body : String) (message : String)
  | connectionFailure
deriving DecidableEq

/-- The result of the HTTP Transport operation request: a successful 2xx
response, an AuthError, a NetworkError, or a RemoteError carrying the
server-supplied message. -/
inductive TransportResult where
  | ok (status : Nat) (body : String)
  | authError
  | networkError
  | remoteError (message : String)
deriving DecidableEq

/-- Modelled from the spec: how the HTTP Transport classifies one wire
outcome: AuthError on 401/403, NetworkError on connection failure,
RemoteError with the server-supplied message on any other non-2xx
response, and the response itself on 2xx. -/
def classify : HttpOutcome → TransportResult
  | .connectionFailure => .networkError
  | .response st body msg =>
    if 200 ≤ st ∧ st < 300 then .ok st body
    else if st = 401 ∨ st = 403 then .authError
    else .remoteError msg

set_option linter.unusedVariables false in
/-- Modelled from the spec: the HTTP Transport operation
request(method, path, auth, body?).  It issues exactly one authenticated
HTTP call and performs no retries, so only the first wire outcome of
`attempts` is consumed and the remaining outcomes are returned untouched;
an empty attempts sequence means no connection could be made at all. -/
def request (method path : String) (auth : AuthKind) (body : Option String)
    (attempts : List HttpOutcome) : TransportResult × List HttpOutcome :=
  match attempts with
  | [] => (.networkError, [])
  | o :: rest => (classify o, rest)

lemma isNonTerminal_of_statusOf (p : PollResponse) (s : JobStatus)
    (h : p.statusOf = some s) (hs : s.isTerminal = false) :
    p.isNonTerminal = true := by
  cases p with
  | transientError => rfl
  | reply s2 d q =>
    simp [PollResponse.statusOf] at h
    simp [PollResponse.isNonTerminal, h, hs]

lemma resultFrom_step_nonTerminal (server : Nat → PollResponse) (t fuel : Nat)
    (h : (server t).isNonTerminal = true) :
    resultFrom server t (fuel + 1) = resultFrom server (t + 1) fuel := by
  cases hst : server t with
  | transientError => simp [resultFrom, hst]
  | reply s d q =>
    cases s <;>
      simp_all [resultFrom, hst, PollResponse.isNonTerminal, JobStatus.isTerminal]

lemma resultFrom_skip (server : Nat → PollResponse) :
    ∀ (k t fuel : Nat), (∀ i, i < k → (server (t + i)).isNonTerminal = true) →
      resultFrom server t (k + fuel) = resultFrom server (t + k) fuel := by
  intro k
  induction k with
  | zero => intro t fuel _; simp
  | succ k ih =>
    intro t fuel h
    have h0 : (server t).isNonTerminal = true := by
      have := h 0 (by omega)
      simpa using this
    have e1 : k + 1 + fuel = (k + fuel) + 1 := by omega
    rw [e1, resultFrom_step_nonTerminal server t (k + fuel) h0]
    have h2 : ∀ i, i < k → (server (t + 1 + i)).isNonTerminal = true := by
      intro i hi
      have e2 : t + 1 + i = t + (i + 1) := by omega
      rw [e2]
      exact h (i + 1) (by omega)
    have := ih (t + 1) fuel h2
    rw [this]
    have e3 : t + 1 + k = t + (k + 1) := by omega
    rw [e3]

lemma result_reach (server : Nat → PollResponse) (n timeout : Nat)
    (ht : n ≤ timeout)
    (hpre : ∀ t, t < n → (server t).isNonTerminal = true) :
    result server timeout = resultFrom server n (timeout - n) := by
  have e : timeout = n + (timeout - n) := by omega
  unfold result
  rw [e, resultFrom_skip server n 0 (timeout - n) (by intro i hi; simpa using hpre i hi)]
  simp

/-- C1: for every job whose successive polled server statuses are QUEUED
until tick `n1`, then RUNNING until tick `n2`, then DONE at tick `n2` with
payload `r`, calling `result` with a timeout large enough to observe the
DONE poll returns `ok r` — the payload of the first DONE reply — and raises
no error. -/
theorem result_queued_running_done
    (server : Nat → PollResponse) (n1 n2 r : Nat) (d : String) (timeout : Nat)
    (hq : ∀ t, t < n1 → (server t).statusOf = some JobStatus.queued)
    (hr : ∀ t, n1 ≤ t → t < n2 → (server t).statusOf = some JobStatus.running)
    (hd : server n2 = .reply .done d r)
    (ht : n2 < timeout) :
    result server timeout = ResultOutcome.ok r := by
  have hpre : ∀ t, t < n2 → (server t).isNonTerminal = true := by
    intro t htn
    by_cases hc : t < n1
    · exact isNonTerminal_of_statusOf _ _ (hq t hc) rfl
    · exact isNonTerminal_of_statusOf _ _ (hr t (by omega) htn) rfl
  rw [result_reach server n2 timeout (by omega) hpre]
  obtain ⟨m, hm⟩ : ∃ m, timeout - n2 = m + 1 := ⟨timeout - n2 - 1, by omega⟩
  rw [hm]
  simp [resultFrom, hd]

/-- C1 witness: the theorem applied to the QUEUED→RUNNING→DONE
demonstration server with a timeout of 5 polls. -/
theorem result_queued_running_done_witness :
    result demoServerQRD 5 = ResultOutcome.ok 42 :=
  result_queued_running_done demoServerQRD 1 2 42 "" 5
    (by decide) (by decide) (by decide) (by omega)

/-- C2: for every job for which the server reports FAILED with error detail
`d` at tick `n`, before the caller-supplied timeout elapses and before any
other terminal status, `result` raises JobFailedError carrying `d`. -/
theorem result_failed
    (server : Nat → PollResponse) (n : Nat) (d : String) (q : Nat) (timeout : Nat)
    (hpre : ∀ t, t < n → (server t).isNonTerminal = true)
    (hf : server n = .reply .failed d q)
    (ht : n < timeout) :
    result server timeout = ResultOutcome.jobFailedError d := by
  rw [result_reach server n timeout (by omega) hpre]
  obtain ⟨m, hm⟩ : ∃ m, timeout - n = m + 1 := ⟨timeout - n - 1, by omega⟩
  rw [hm]
  simp [resultFrom, hf]

/-- C2 witness: the theorem applied to the demonstration server that fails
at the second poll with the message "boom". -/
theorem result_failed_witness :
    result demoServerFail 5 = ResultOutcome.jobFailedError "boom" :=
  result_failed demoServerFail 1 "boom" 0 5 (by decide) (by decide) (by omega)

/-- C3: for every job and timeout, if every poll before the timeout is a
transient per-poll error or a reply with a non-terminal status, `result`
keeps polling until the timeout and then raises TimeoutError; in
particular a transient per-poll error never aborts the loop early. -/
theorem result_timeout
    (server : Nat → PollResponse) (timeout : Nat)
    (h : ∀ t, t < timeout → (server t).isNonTerminal = true) :
    result server timeout = ResultOutcome.timeoutError := by
  have := resultFrom_skip server timeout 0 0 (by intro i hi; simpa using h i hi)
  simpa [result] using this

/-- C3 witness: the theorem applied to the demonstration server that
alternates transient errors with QUEUED replies, with a timeout of 4
polls. -/
theorem result_timeout_witness :
    result demoServerStuck 4 = ResultOutcome.timeoutError :=
  result_timeout demoServerStuck 4 (by decide)

lemma validTrace_terminal_absorbing (s : JobStatus) (trace : List (ClientOp × JobStatus))
    (hv : validTrace s trace = true) (hs : s.isTerminal = true) :
    ∀ p ∈ trace, p.2 = s := by
  induction trace generalizing s with
  | nil => intro p hp; cases hp
  | cons head rest ih =>
    obtain ⟨op, s2⟩ := head
    simp only [validTrace, Bool.and_eq_true] at hv
    have hstep : s2 = s := by
      have h1 := hv.1
      revert h1 hs
      cases s <;> cases op <;> cases s2 <;> decide
    intro p hp
    rcases List.mem_cons.mp hp with h | h
    · rw [h]
      exact hstep
    · have := ih s2 hv.2 (by rw [hstep]; exact hs) p h
      rw [this, hstep]

/-- C4: the locally tracked job status follows the state machine: along
every allowed transition the progress `rank` never decreases (no
client-side rollback), a terminal status never changes under any client
operation, CANCELLED is only ever entered through an explicit cancel
request, and once a valid observed run reaches a terminal status every
later status in the run equals it. -/
theorem job_state_machine :
    (∀ s op s2, allowedNext s op s2 = true → rank s ≤ rank s2) ∧
    (∀ s op s2, allowedNext s op s2 = true → s.isTerminal = true → s2 = s) ∧
    (∀ s op s2, allowedNext s op s2 = true → s2 = JobStatus.cancelled →
      s = JobStatus.cancelled ∨ op = ClientOp.cancelReq) ∧
    (∀ s trace, validTrace s trace = true → s.isTerminal = true →
      ∀ p ∈ trace, p.2 = s) :=
  ⟨by decide, by decide, by decide, validTrace_terminal_absorbing⟩

/-- C4 witness: the state machine facts applied to the concrete allowed
transition RUNNING to DONE under a poll, and to the concrete valid
terminal run starting at DONE. -/
theorem job_state_machine_witness :
    allowedNext JobStatus.running ClientOp.poll JobStatus.done = true ∧
    rank JobStatus.running ≤ rank JobStatus.done ∧
    validTrace JobStatus.done [(ClientOp.poll, JobStatus.done)] = true ∧
    (ClientOp.poll, JobStatus.done).2 = JobStatus.done :=
  ⟨by decide,
   job_state_machine.1 JobStatus.running ClientOp.poll JobStatus.done (by decide),
   by decide,
   job_state_machine.2.2.2 JobStatus.done [(ClientOp.poll, JobStatus.done)]
     (by decide) (by decide) (ClientOp.poll, JobStatus.done) (by decide)⟩

/-- C7: `cancel` is idempotent on terminal jobs: a job already in a
terminal status is left unchanged by a cancel request, and for every job
cancelling twice has the same effect as cancelling once. -/
theorem cancel_idempotent :
    (∀ s, s.isTerminal = true → cancel s = s) ∧
    (∀ s, cancel (cancel s) = cancel s) :=
  ⟨by decide, by decide⟩

/-- C7 witness: cancelling an already DONE job leaves it DONE, and a
second cancel of a QUEUED job changes nothing further. -/
theorem cancel_idempotent_witness :
    JobStatus.done.isTerminal = true ∧ cancel JobStatus.done = JobStatus.done ∧
    cancel (cancel JobStatus.queued) = cancel JobStatus.queued :=
  ⟨by decide, cancel_idempotent.1 JobStatus.done (by decide),
   cancel_idempotent.2 JobStatus.queued⟩

lemma get_hit_shape {α : Type} (c : CalCache α) (key : String) (fetch : Unit → α)
    (now : Nat) (e : CacheEntry α)
    (he : lookupEntry c.entries key = some e) (ha : now - e.storedAt < TTL) :
    c.get key fetch now = (e.value, c, false) := by
  simp [CalCache.get, he, ha]

lemma get_miss_shape {α : Type} (c : CalCache α) (key : String) (fetch : Unit → α)
    (now : Nat)
    (h : lookupEntry c.entries key = none ∨
      ∃ e, lookupEntry c.entries key = some e ∧ TTL ≤ now - e.storedAt) :
    c.get key fetch now = (fetch (), ⟨(key, ⟨fetch (), now⟩) :: c.entries⟩, true) := by
  rcases h with h | ⟨e, he, ha⟩
  · simp [CalCache.get, h]
  · have hlt : ¬ (now - e.storedAt < TTL) := by omega
    simp [CalCache.get, he, hlt]

lemma get_fetched_shape {α : Type} (c : CalCache α) (key : String) (fetch : Unit → α)
    (now : Nat) (h : (c.get key fetch now).2.2 = true) :
    c.get key fetch now = (fetch (), ⟨(key, ⟨fetch (), now⟩) :: c.entries⟩, true) := by
  rcases he : lookupEntry c.entries key with _ | e
  · simp [CalCache.get, he]
  · by_cases ha : now - e.storedAt < TTL
    · rw [get_hit_shape c key fetch now e he ha] at h
      cases h
    · simp [CalCache.get, he, ha]

/-- C5: behaviour of the calibration/device cache.  A `get` while the
stored entry is younger than `TTL` returns the cached value, leaves the
cache unchanged and does not invoke fetch_fn; a `get` with no entry, or
with an entry at least `TTL` old, invokes fetch_fn, stores its result with
the current timestamp and returns it; hence after a fetching `get`, a
second `get` for the same key less than `TTL` later returns the identical
value without invoking its fetch function, while a second `get` at least
`TTL` later invokes its fetch function again. -/
theorem cache_get_ttl {α : Type} :
    (∀ (c : CalCache α) (key : String) (fetch : Unit → α) (now : Nat)
        (e : CacheEntry α),
      lookupEntry c.entries key = some e → now - e.storedAt < TTL →
      c.get key fetch now = (e.value, c, false)) ∧
    (∀ (c : CalCache α) (key : String) (fetch : Unit → α) (now : Nat),
      (lookupEntry c.entries key = none ∨
        ∃ e, lookupEntry c.entries key = some e ∧ TTL ≤ now - e.storedAt) →
      c.get key fetch now =
        (fetch (), ⟨(key, ⟨fetch (), now⟩) :: c.entries⟩, true)) ∧
    (∀ (c : CalCache α) (key : String) (f g : Unit → α) (now now2 : Nat),
      (c.get key f now).2.2 = true → now2 - now < TTL →
      ((c.get key f now).2.1).get key g now2 =
        ((c.get key f now).1, (c.get key f now).2.1, false)) ∧
    (∀ (c : CalCache α) (key : String) (f g : Unit → α) (now now2 : Nat),
      (c.get key f now).2.2 = true → TTL ≤ now2 - now →
      ((c.get key f now).2.1).get key g now2 =
        (g (), ⟨(key, ⟨g (), now2⟩) :: ((c.get key f now).2.1).entries⟩, true)) := by
  refine ⟨get_hit_shape, get_miss_shape, ?_, ?_⟩
  · intro c key f g now now2 hflag hage
    rw [get_fetched_shape c key f now hflag]
    exact get_hit_shape _ key g now2 ⟨f (), now⟩ (by simp [lookupEntry]) hage
  · intro c key f g now now2 hflag hage
    rw [get_fetched_shape c key f now hflag]
    exact get_miss_shape _ key g now2 (Or.inr ⟨⟨f (), now⟩, by simp [lookupEntry], hage⟩)

/-- C5 witness: on an initially empty cache of naturals, a `get` at time 0
fetches and stores 7; a `get` at time 10 (within TTL) returns the same 7
without invoking its fetch function; a `get` at time 70 (TTL expired)
invokes its fetch function again. -/
theorem cache_get_ttl_witness :
    ((CalCache.mk ([] : List (String × CacheEntry Nat))).get "Loke" (fun _ => 7) 0).2.2
        = true ∧
    ((((CalCache.mk ([] : List (String × CacheEntry Nat))).get "Loke" (fun _ => 7) 0).2.1).get
        "Loke" (fun _ => 9) 10 =
      (((CalCache.mk []).get "Loke" (fun _ => 7) 0).1,
       ((CalCache.mk []).get "Loke" (fun _ => 7) 0).2.1, false)) ∧
    ((((CalCache.mk ([] : List (String × CacheEntry Nat))).get "Loke" (fun _ => 7) 0).2.1).get
        "Loke" (fun _ => 9) 70 =
      ((fun _ : Unit => 9) (),
       ⟨("Loke", ⟨(fun _ : Unit => 9) (), 70⟩) ::
         (((CalCache.mk []).get "Loke" (fun _ => 7) 0).2.1).entries⟩, true)) :=
  ⟨by decide,
   cache_get_ttl.2.2.1 (CalCache.mk []) "Loke" (fun _ => 7) (fun _ => 9) 0 10
     (by decide) (by decide),
   cache_get_ttl.2.2.2 (CalCache.mk []) "Loke" (fun _ => 7) (fun _ => 9) 0 70
     (by decide) (by decide)⟩

lemma lookupSection_saveSections (cfg : ConfigSections) (a : ProviderAccount) :
    lookupSection (saveSections cfg a) a.service_name = some a := by
  induction cfg with
  | nil => simp [saveSections, lookupSection]
  | cons head rest ih =>
    obtain ⟨k, b⟩ := head
    by_cases hk : k = a.service_name
    · simp [saveSections, hk, lookupSection]
    · simp [saveSections, hk, lookupSection, ih]

/-- C6: save/load round-trip on the Account Store: for every config file
state and every provider account, saving the account and then loading by
its service_name returns the account saved, the saved file holds exactly
that account under the section named by its service_name, and saving
overwrites an existing section of the same name rather than duplicating
it. -/
theorem save_load_roundtrip :
    (∀ (cfg : ConfigSections) (a : ProviderAccount) (fb : Option ProviderAccount),
      load (some (saveSections cfg a)) (some a.service_name) fb = LoadResult.ok a) ∧
    (∀ (cfg : ConfigSections) (a : ProviderAccount),
      lookupSection (saveSections cfg a) a.service_name = some a) ∧
    (∀ (k : String) (b : ProviderAccount) (rest : ConfigSections) (a : ProviderAccount),
      k = a.service_name →
      saveSections ((k, b) :: rest) a = (k, a) :: rest) := by
  refine ⟨?_, lookupSection_saveSections, ?_⟩
  · intro cfg a fb
    simp [load, findAccount, lookupSection_saveSections cfg a]
  · intro k b rest a hk
    simp [saveSections, hk]

/-- C6 witness: saving an account over a file that already has a section
of the same name overwrites it, and loading it back returns the saved
account. -/
theorem save_load_roundtrip_witness :
    load (some (saveSections [("A", ProviderAccount.mk "A" "u0" none)]
        (ProviderAccount.mk "A" "u1" (some "tok")))) (some "A") none =
      LoadResult.ok (ProviderAccount.mk "A" "u1" (some "tok")) ∧
    saveSections [("A", ProviderAccount.mk "A" "u0" none)]
        (ProviderAccount.mk "A" "u1" (some "tok")) =
      [("A", ProviderAccount.mk "A" "u1" (some "tok"))] :=
  ⟨save_load_roundtrip.1 [("A", ProviderAccount.mk "A" "u0" none)]
      (ProviderAccount.mk "A" "u1" (some "tok")) none,
   save_load_roundtrip.2.2 "A" (ProviderAccount.mk "A" "u0" none)
      [] (ProviderAccount.mk "A" "u1" (some "tok")) rfl⟩

/-- C9: load(service_name?) fails with ConfigNotFoundError exactly when no
account is found for the request — the file is absent, or the named
section is absent, or no name is given and the file has no section — and
no account is supplied directly; otherwise it returns the account of the
named section, or the first-found account when no name is given. -/
theorem load_semantics :
    (∀ (file : Option ConfigSections) (sn : Option String)
        (fb : Option ProviderAccount),
      load file sn fb = LoadResult.configNotFoundError ↔
        findAccount file sn = none ∧ fb = none) ∧
    (∀ sn, findAccount none sn = none) ∧
    (∀ (secs : ConfigSections) (n : String),
      findAccount (some secs) (some n) = lookupSection secs n) ∧
    (∀ (secs : ConfigSections), findAccount (some secs) none = firstAccount secs) ∧
    (∀ (file : Option ConfigSections) (sn : Option String)
        (fb : Option ProviderAccount) (a : ProviderAccount),
      findAccount file sn = some a → load file sn fb = LoadResult.ok a) := by
  refine ⟨?_, ?_, ?_, ?_, ?_⟩
  · intro file sn fb
    rcases hf : findAccount file sn with _ | a
    · rcases fb with _ | b <;> simp [load, hf]
    · simp [load, hf]
  · intro sn
    rcases sn with _ | n <;> rfl
  · intro secs n
    rfl
  · intro secs
    rfl
  · intro file sn fb a hf
    simp [load, hf]

/-- C9 witness: loading the section "B" from a one-section file named "A"
with no account supplied fails with ConfigNotFoundError, and loading with
no service name returns the first-found account. -/
theorem load_semantics_witness :
    (load (some [("A", ProviderAccount.mk "A" "u" none)]) (some "B") none =
        LoadResult.configNotFoundError ↔
      findAccount (some [("A", ProviderAccount.mk "A" "u" none)]) (some "B") = none ∧
        (none : Option ProviderAccount) = none) ∧
    load (some [("A", ProviderAccount.mk "A" "u" none)]) none none =
      LoadResult.ok (ProviderAccount.mk "A" "u" none) :=
  ⟨load_semantics.1 (some [("A", ProviderAccount.mk "A" "u" none)]) (some "B") none,
   load_semantics.2.2.2.2 (some [("A", ProviderAccount.mk "A" "u" none)]) none none
     (ProviderAccount.mk "A" "u" none) rfl⟩

/-- C10: using a provider account without the save option is side-effect
free on the config file: use_provider_account(account) with save = false
returns a provider backed by the account and leaves the tergiterc file
contents exactly unchanged; only the save = true variant writes, and what
it writes contains the account under its service_name. -/
theorem use_provider_account_frame :
    (∀ (file : Option ConfigSections) (a : ProviderAccount),
      use_provider_account file a false = (TergiteProvider.mk a, file)) ∧
    (∀ (file : Option ConfigSections) (a : ProviderAccount),
      (use_provider_account file a true).2 = some (saveSections (file.getD []) a)) ∧
    (∀ (file : Option ConfigSections) (a : ProviderAccount),
      ∃ secs, (use_provider_account file a true).2 = some secs ∧
        lookupSection secs a.service_name = some a) := by
  refine ⟨?_, ?_, ?_⟩
  · intro file a
    rfl
  · intro file a
    rfl
  · intro file a
    exact ⟨saveSections (file.getD []) a, rfl, lookupSection_saveSections _ a⟩

/-- C8: HTTP Transport request classification and the absence of retries:
a connection failure yields NetworkError; a 401 or 403 response yields
AuthError; a 2xx response is returned as a success; any other response
yields RemoteError carrying the server-supplied message; and exactly one
wire outcome is consumed per request, whatever the outcome. -/
theorem transport_request_spec :
    (∀ (m p : String) (auth : AuthKind) (body : Option String)
        (rest : List HttpOutcome),
      request m p auth body (HttpOutcome.connectionFailure :: rest) =
        (TransportResult.networkError, rest)) ∧
    (∀ (m p : String) (auth : AuthKind) (body : Option String)
        (st : Nat) (bd msg : String) (rest : List HttpOutcome),
      st = 401 ∨ st = 403 →
      request m p auth body (HttpOutcome.response st bd msg :: rest) =
        (TransportResult.authError, rest)) ∧
    (∀ (m p : String) (auth : AuthKind) (body : Option String)
        (st : Nat) (bd msg : String) (rest : List HttpOutcome),
      200 ≤ st → st < 300 →
      request m p auth body (HttpOutcome.response st bd msg :: rest) =
        (TransportResult.ok st bd, rest)) ∧
    (∀ (m p : String) (auth : AuthKind) (body : Option String)
        (st : Nat) (bd msg : String) (rest : List HttpOutcome),
      ¬ (200 ≤ st ∧ st < 300) → st ≠ 401 → st ≠ 403 →
      request m p auth body (HttpOutcome.response st bd msg :: rest) =
        (TransportResult.remoteError msg, rest)) ∧
    (∀ (m p : String) (auth : AuthKind) (body : Option String)
        (o : HttpOutcome) (rest : List HttpOutcome),
      (request m p auth body (o :: rest)).2 = rest) := by
  refine ⟨?_, ?_, ?_, ?_, ?_⟩
  · intro m p auth body rest
    rfl
  · intro m p auth body st bd msg rest h
    rcases h with rfl | rfl <;> simp [request, classify]
  · intro m p auth body st bd msg rest h1 h2
    simp [request, classify, h1, h2]
  · intro m p auth body st bd msg rest h1 h2 h3
    simp [request, classify, h1, h2, h3]
  · intro m p auth body o rest
    rfl

/-- C8 witness: the transport classification applied to concrete requests:
a 403 response gives AuthError, a 200 response succeeds, a 500 response
gives RemoteError with the server message, and each consumes exactly its
own wire outcome. -/
theorem transport_request_spec_witness :
    request "GET" "/devices" (AuthKind.bearer "tok") none
        [HttpOutcome.response 403 "" "forbidden"] =
      (TransportResult.authError, []) ∧
    request "GET" "/devices" (AuthKind.basic "u" "pw") none
        [HttpOutcome.response 200 "[]" ""] =
      (TransportResult.ok 200 "[]", []) ∧
    request "POST" "/jobs" (AuthKind.bearer "tok") (some "payload")
        [HttpOutcome.response 500 "" "server exploded"] =
      (TransportResult.remoteError "server exploded", []) :=
  ⟨transport_request_spec.2.1 "GET" "/devices" (AuthKind.bearer "tok") none
      403 "" "forbidden" [] (Or.inr rfl),
   transport_request_spec.2.2.1 "GET" "/devices" (AuthKind.basic "u" "pw") none
      200 "[]" "" [] (by omega) (by omega),
   transport_request_spec.2.2.2.1 "POST" "/jobs" (AuthKind.bearer "tok")
      (some "payload") 500 "" "server exploded" [] (by omega) (by omega) (by omega)⟩

end Tergite
